import Mathlib

/-!
Verification of the NICE-bus transportation forms application
(`opsforms.py`): field validation, signature-presence detection,
spreadsheet row serialization, PDF layout, and the submission
orchestrators for the incident and pay-exception forms.

The Python source is shallowly embedded: form values become the
inductive type `Value`, signature canvases carry an optional RGBA
bitmap, and the Streamlit submit handlers become pure functions that
return which side effects (spreadsheet append, PDF render, email
send) were performed.
-/

set_option autoImplicit false

namespace OpsForms

/-- One RGBA pixel of a signature canvas bitmap (`image_data[...,0..3]`);
channel 3 is the alpha channel. -/
structure Pixel where
  r : Nat
  g : Nat
  b : Nat
  a : Nat
  deriving DecidableEq, Repr

/-- A canvas bitmap: rows of RGBA pixels (the NumPy `image_data` array). -/
abbrev Bitmap := List (List Pixel)

/-- A calendar date, as produced by `st.date_input` (`datetime.date`). -/
structure Date where
  year : Nat
  month : Nat
  day : Nat
  deriving DecidableEq, Repr

/-- The universe of field values occurring in the forms: strings from
text inputs / radios, booleans from checkboxes, dates from date
inputs, and signature canvases (whose `image_data` may be `None`). -/
inductive Value where
  | str (s : String)
  | bool (b : Bool)
  | date (d : Date)
  | canvas (imageData : Option Bitmap)
  deriving DecidableEq, Repr

/-- Initial-segment test on character lists (helper for `strContains`). -/
def listIsInit : List Char → List Char → Bool
  | [], _ => true
  | _ :: _, [] => false
  | a :: as, b :: bs => a == b && listIsInit as bs

/-- Substring test on character lists (helper for `strContains`). -/
def listHasSub (needle : List Char) : List Char → Bool
  | [] => listIsInit needle []
  | b :: bs => listIsInit needle (b :: bs) || listHasSub needle bs

/-- Python's `needle in hay` substring containment for strings. -/
def strContains (hay needle : String) : Bool :=
  listHasSub needle.data hay.data

/-- Python truthiness of a form value: an empty string, `False`, are
falsy; dates and canvas objects are always truthy. -/
def Value.truthy : Value → Bool
  | .str s => !(s == "")
  | .bool b => b
  | .date _ => true
  | .canvas _ => true

/-- Attribute access `value.image_data`: succeeds (with the optional
bitmap) only on a canvas object; on any other value it is an
`AttributeError`, modelled as `none`. -/
def Value.imageData : Value → Option (Option Bitmap)
  | .canvas d => some d
  | _ => none

/-- Function `is_signature_present(image_data)` from `opsforms.py`: `False` when
`image_data` is `None`, otherwise whether any pixel has alpha > 0
(`np.any(image_data[:, :, 3] > 0)`). -/
def is_signature_present : Option Bitmap → Bool
  | none => false
  | some img => img.any (fun row => row.any (fun px => decide (0 < px.a)))

/-- Function `validate_form(required_fields)` from `opsforms.py`. The dict of
required fields is an insertion-ordered association list
`(key, (label, value))`. A key containing `"signature"` is checked via
`is_signature_present(value.image_data)`; other keys via truthiness.
Returns the missing `(key, label)` pairs in order, or an error when an
`.image_data` access hits a non-canvas value (`AttributeError`). -/
def validate_form : List (String × String × Value) → Except String (List (String × String))
  | [] => .ok []
  | (key, label, value) :: rest =>
    let isSignature := strContains key "signature"
    let isMissing : Except String Bool :=
      if isSignature then
        match value.imageData with
        | none => .error ("AttributeError: value for " ++ key ++ " has no attribute image_data")
        | some d => .ok (!is_signature_present d)
      else
        .ok (!value.truthy)
    match isMissing with
    | .error e => .error e
    | .ok m =>
      match validate_form rest with
      | .error e => .error e
      | .ok ms => .ok (if m then (key, label) :: ms else ms)

/-- Zero-pad a number to two digits (for `datetime.date.isoformat`). -/
def pad2 (n : Nat) : String :=
  if n < 10 then "0" ++ toString n else toString n

/-- Python `datetime.date.isoformat()`: the `YYYY-MM-DD` string of a date. -/
def Date.isoformat (d : Date) : String :=
  toString d.year ++ "-" ++ pad2 d.month ++ "-" ++ pad2 d.day

/-- Function `serialize_value(val)` from `opsforms.py`: dates become their
ISO-8601 string; every other value passes through unchanged. -/
def serialize_value : Value → Value
  | .date d => .str d.isoformat
  | v => v

/-- Python `data.get(col, default)` on an insertion-ordered dict,
modelled as first-match lookup in an association list. -/
def dictGet (data : List (String × Value)) (key : String) (default : Value) : Value :=
  match data.lookup key with
  | some v => v
  | none => default

/-- The row built by `save_to_gsheet`:
`[serialize_value(data.get(col, "")) for col in columns]`. -/
def gsheetRow (data : List (String × Value)) (columns : List String) : List Value :=
  columns.map (fun col => serialize_value (dictGet data col (.str "")))

/-- Python `str(value)` for the values drawn into the PDF. -/
def Value.toPyStr : Value → String
  | .str s => s
  | .bool b => if b then "True" else "False"
  | .date d => d.isoformat
  | .canvas _ => "<canvas>"

/-! ### Word wrapping

`draw_wrapped_text` delegates the actual line splitting to reportlab's
`simpleSplit`, which is third-party library code not part of this
repository. -/

/-- Modelled from the spec: reportlab's `simpleSplit`, absent from the
source tree, described by the spec as word-wrapping text to a fixed
column width. Greedy wrap of a word list: a word joins the current
line when the line stays within `maxW` abstract width units (one unit
per character, one per joining space); otherwise it starts a new
line. -/
def wrapWords (maxW : Nat) : List (List Char) → List Char → List (List Char)
  | [], cur => [cur]
  | w :: ws, cur =>
    if cur.length + 1 + w.length ≤ maxW then
      wrapWords maxW ws (cur ++ [' '] ++ w)
    else
      cur :: wrapWords maxW ws w

/-- Split a character list at the spaces (keeping empty words so that
rejoining with single spaces is exact). -/
def splitSpaces : List Char → List (List Char)
  | [] => [[]]
  | c :: cs =>
    if c = ' ' then
      [] :: splitSpaces cs
    else
      match splitSpaces cs with
      | [] => [[c]]
      | w :: ws => (c :: w) :: ws

/-- Modelled from the spec: the line splitter used by
`draw_wrapped_text` — split the text into words and wrap them greedily
to the fixed column width. -/
def simpleSplit (text : List Char) (maxW : Nat) : List (List Char) :=
  match splitSpaces text with
  | [] => [[]]
  | w :: ws => wrapWords maxW ws w

/-- Join lines back with single spaces (the inverse view of wrapping). -/
def joinSpaces : List (List Char) → List Char
  | [] => []
  | [w] => w
  | w :: ws => w ++ [' '] ++ joinSpaces ws

/-! ### PDF rendering (`save_submission_pdf`)

Page size is `letter = (612, 792)`; drawing positions are points from
the bottom-left corner. The render is modelled as the list of drawing
operations emitted, together with the running vertical position. -/

/-- One drawing operation of the reportlab canvas. -/
inductive PdfOp where
  | setFont (font : String) (size : Nat)
  | drawCentredString (x y : Int) (s : String)
  | drawString (x y : Int) (s : String)
  | line (x1 y1 x2 y2 : Int)
  | drawImage (img : Bitmap) (x y w h : Int)
  | showPage
  deriving DecidableEq, Repr

/-- Page width of `letter` in points. -/
def pageWidth : Int := 612

/-- Page height of `letter` in points. -/
def pageHeight : Int := 792

/-- Render state: vertical position and the operations emitted so far. -/
structure PdfState where
  y : Int
  ops : List PdfOp
  deriving DecidableEq, Repr

/-- Call `c.showPage()` followed by the reset done everywhere in
`save_submission_pdf`: `y = height - 72; c.setFont("Helvetica", 14)`. -/
def newPageReset (s : PdfState) : PdfState :=
  { y := pageHeight - 72,
    ops := s.ops ++ [.showPage, .setFont "Helvetica" 14] }

/-- Function `draw_wrapped_text(c, text, x, y, max_width)`: split the text,
draw each line at decreasing `y` (leading 14), return the final `y`. -/
def draw_wrapped_text (s : PdfState) (text : String) (x : Int) (maxWidth : Nat) : PdfState :=
  let lines := simpleSplit text.data maxWidth
  { y := s.y - 14 * lines.length,
    ops := s.ops ++ (lines.enum.map
      (fun li => PdfOp.drawString x (s.y - 14 * li.1) (String.mk li.2))) }

/-- The long-text field keys word-wrapped in the PDF. -/
def wrapped_text_fields : List String :=
  ["explanation_of_incident",
   "reason_for_non_immediate_report",
   "incident_type_other",
   "pay_explanation",
   "traffic_location"]

/-- The drawing part of the field-loop body of `save_submission_pdf`:
one `(label, key)` pair, wrapped or plain, without the page-break
check. -/
def drawPairRaw (data : List (String × Value)) (s : PdfState) (lf : String × String) :
    PdfState :=
  let (label, key) := lf
  let value := dictGet data key (.str "")
  if wrapped_text_fields.contains key then
    let s0 : PdfState :=
      { y := s.y - 16,
        ops := s.ops ++ [.setFont "Helvetica-Bold" 12, .drawString 72 s.y (label ++ ":"),
                         .setFont "Helvetica" 12] }
    let s0 := draw_wrapped_text s0 value.toPyStr 90 450
    { s0 with y := s0.y - 10 }
  else
    { y := s.y - 20,
      ops := s.ops ++ [.setFont "Helvetica-Bold" 12, .drawString 72 s.y (label ++ ":"),
                       .setFont "Helvetica" 12, .drawString 250 s.y value.toPyStr] }

/-- The page-break check run after each pair:
`if y < 100: c.showPage(); y = height - 72; c.setFont(...)`. -/
def pageBreakIfLow (s1 : PdfState) : PdfState :=
  if s1.y < 100 then newPageReset s1 else s1

/-- The body of the field loop of `save_submission_pdf`: draw one
`(label, key)` pair, then break the page when the position has
dropped below 100. -/
def drawFieldPair (data : List (String × Value)) (s : PdfState) (lf : String × String) :
    PdfState :=
  pageBreakIfLow (drawPairRaw data s lf)

/-- Function `process_signature_img(signature_canvas)`: `None` when the canvas
has no `image_data`; otherwise the bitmap is pasted onto a white
background using its own alpha as mask and converted to RGB. -/
def flattenPixel (p : Pixel) : Pixel :=
  { r := (p.r * p.a + 255 * (255 - p.a)) / 255,
    g := (p.g * p.a + 255 * (255 - p.a)) / 255,
    b := (p.b * p.a + 255 * (255 - p.a)) / 255,
    a := 255 }

/-- Apply `process_signature_img` to the canvas's optional `image_data`. -/
def process_signature_img : Option Bitmap → Option Bitmap
  | none => none
  | some img => some (img.map (List.map flattenPixel))

/-- Width of a signature image in the PDF (`pdf_sig_width`). -/
def pdf_sig_width : Int := 400

/-- Height of a signature image in the PDF:
`int(pdf_sig_width * (150 / 600)) = 100`. -/
def pdf_sig_height : Int := 100

/-- Draw one signature block (label, then the flattened image when the
canvas holds a bitmap); `dropAfter` is 30 for the operator block and 3
for the supervisor block. -/
def drawSignatureBlock (s : PdfState) (label : String) (imageData : Option Bitmap)
    (dropAfter : Int) : PdfState :=
  let s0 : PdfState :=
    { s with ops := s.ops ++ [.setFont "Helvetica-Bold" 12, .drawString 72 s.y (label ++ ":")] }
  match process_signature_img imageData with
  | none => s0
  | some img =>
    let imageBottomY := s0.y - 15 - pdf_sig_height
    { y := imageBottomY - dropAfter,
      ops := s0.ops ++ [.drawImage img 72 imageBottomY pdf_sig_width pdf_sig_height] }

/-- Function `save_submission_pdf(data, field_list, pdf_title, filename, ...)`:
title, rule, the field loop, then the optional signature blocks.
Signature parameters are the optional canvas arguments, each carrying
its optional `image_data`. -/
def save_submission_pdf (data : List (String × Value)) (field_list : List (String × String))
    (pdf_title : String) (operator_signature_img supervisor_signature_img : Option (Option Bitmap)) :
    PdfState :=
  let s0 : PdfState :=
    { y := pageHeight - 80,
      ops := [.setFont "Helvetica-Bold" 20,
              .drawCentredString (pageWidth / 2) (pageHeight - 50) pdf_title] }
  let s1 : PdfState :=
    { y := s0.y - 24,
      ops := s0.ops ++ [.line 72 s0.y (pageWidth - 72) s0.y, .setFont "Helvetica" 14] }
  let s2 := field_list.foldl (drawFieldPair data) s1
  if operator_signature_img.isSome || supervisor_signature_img.isSome then
    let s3 := if s2.y < 350 then newPageReset s2 else s2
    let s4 :=
      match operator_signature_img with
      | none => s3
      | some d => drawSignatureBlock s3 "Operator Signature" d 30
    match supervisor_signature_img with
    | none => s4
    | some d => drawSignatureBlock s4 "Supervisor Signature" d 3
  else
    s2

/-! ### The incident form (`show_incident_form`) -/

/-- The widget values of one incident-form submission, in the order
they are read in `show_incident_form`. Radios (`am_pm*`,
`report_submitted_to`, `incident_type`, `reported_immediately`,
`sqm_respond_to_incident`) always hold one of their options, hence
are non-empty strings; checkboxes are booleans; the two signature
canvases carry their optional `image_data`. -/
structure IncidentInputs where
  date : Date
  time : String
  am_pm1 : String
  brief : String
  operator_name : String
  vehicle : String
  operator_id : String
  route : String
  depot : String
  run : String
  report_submitted_to : String
  incident_type : String
  incident_type_other : String
  reported_immediately : String
  reported_to_dispatcher : String
  reason_for_non_immediate_report : String
  sqm_respond_to_incident : String
  responding_sqm : String
  date_incident_occurred : Date
  date_incident_reported : Date
  time_incident_occurred : String
  time_incident_reported : String
  am_pm2 : String
  am_pm3 : String
  no_actual_date_and_time : Bool
  late_report : Bool
  incident_location : String
  passenger_name : String
  passenger_id : String
  explanation_of_incident : String
  signed_sqm_name : String
  date_submitted : Date
  operator_signature : Option Bitmap
  supervisor_signature : Option Bitmap
  deriving DecidableEq, Repr

/-- Dict `incident_required_fields` from `show_incident_form`: the
insertion-ordered `key -> (label, value)` dict of required entries. -/
def incident_required_fields (i : IncidentInputs) : List (String × String × Value) :=
  [("incident_time", "Time", .str i.time),
   ("incident_brief", "Brief #", .str i.brief),
   ("incident_operator_name", "Operator Name", .str i.operator_name),
   ("incident_vehicle", "Vehicle #", .str i.vehicle),
   ("incident_operator_id", "Operator ID", .str i.operator_id),
   ("incident_route", "Route #", .str i.route),
   ("incident_depot", "Depot", .str i.depot),
   ("incident_run", "Run #", .str i.run),
   ("incident_location", "Location of incident", .str i.incident_location),
   ("explanation_of_incident", "Explain what happened", .str i.explanation_of_incident),
   ("incident_signed_sqm_name", "Signed SQM Name", .str i.signed_sqm_name),
   ("operator_signature", "Operator Signature", .canvas i.operator_signature),
   ("supervisor_signature", "Supervisor Signature", .canvas i.supervisor_signature)]

/-- Dict `incident_form_data` from `show_incident_form`: the submission
dict handed to the spreadsheet and PDF steps. -/
def incident_form_data (i : IncidentInputs) : List (String × Value) :=
  [("date", .date i.date),
   ("time", .str i.time),
   ("am_pm1", .str i.am_pm1),
   ("brief", .str i.brief),
   ("operator_name", .str i.operator_name),
   ("operator_id", .str i.operator_id),
   ("depot", .str i.depot),
   ("vehicle", .str i.vehicle),
   ("route", .str i.route),
   ("run", .str i.run),
   ("report_submitted_to", .str i.report_submitted_to),
   ("incident_type", .str i.incident_type),
   ("incident_type_other", .str i.incident_type_other),
   ("reported_immediately", .str i.reported_immediately),
   ("reported_to_dispatcher", .str i.reported_to_dispatcher),
   ("reason_for_non_immediate_report", .str i.reason_for_non_immediate_report),
   ("sqm_respond_to_incident", .str i.sqm_respond_to_incident),
   ("responding_sqm", .str i.responding_sqm),
   ("date_incident_occurred", .date i.date_incident_occurred),
   ("date_incident_reported", .date i.date_incident_reported),
   ("time_incident_occurred", .str i.time_incident_occurred),
   ("am_pm2", .str i.am_pm2),
   ("time_incident_reported", .str i.time_incident_reported),
   ("am_pm3", .str i.am_pm3),
   ("no_actual_date_and_time", .bool i.no_actual_date_and_time),
   ("late_report", .bool i.late_report),
   ("incident_location", .str i.incident_location),
   ("passenger_name", .str i.passenger_name),
   ("passenger_id", .str i.passenger_id),
   ("explanation_of_incident", .str i.explanation_of_incident),
   ("signed_sqm_name", .str i.signed_sqm_name),
   ("date_submitted", .date i.date_submitted)]

/-- List `incident_columns`: the fixed spreadsheet column order of the
incident worksheet. -/
def incident_columns : List String :=
  ["date", "time", "am_pm1", "brief", "operator_name", "operator_id", "depot", "vehicle",
   "route", "run", "report_submitted_to", "incident_type", "incident_type_other",
   "reported_immediately", "reported_to_dispatcher", "reason_for_non_immediate_report",
   "sqm_respond_to_incident", "responding_sqm", "date_incident_occurred",
   "date_incident_reported", "time_incident_occurred", "am_pm2", "time_incident_reported",
   "am_pm3", "no_actual_date_and_time", "late_report", "incident_location",
   "passenger_name", "passenger_id", "explanation_of_incident", "signed_sqm_name",
   "date_submitted"]

/-- List `incident_field_list`: the `(label, key)` pairs rendered into the
incident PDF, in order. -/
def incident_field_list : List (String × String) :=
  [("Date", "date"),
   ("Time", "time"),
   ("AM/PM", "am_pm1"),
   ("Brief #", "brief"),
   ("Operator Name", "operator_name"),
   ("Vehicle #", "vehicle"),
   ("Operator ID", "operator_id"),
   ("Route #", "route"),
   ("Depot", "depot"),
   ("Run #", "run"),
   ("Report Submitted To", "report_submitted_to"),
   ("Incident Type", "incident_type"),
   ("Incident Type Other", "incident_type_other"),
   ("Reported Immediately", "reported_immediately"),
   ("Reported to Dispatcher", "reported_to_dispatcher"),
   ("Reason for Non-Immediate Report", "reason_for_non_immediate_report"),
   ("SQM Responded", "sqm_respond_to_incident"),
   ("Responding SQM", "responding_sqm"),
   ("Date Incident Occurred", "date_incident_occurred"),
   ("Date Incident Reported", "date_incident_reported"),
   ("Time Incident Occurred", "time_incident_occurred"),
   ("AM/PM", "am_pm2"),
   ("Time Incident Reported", "time_incident_reported"),
   ("AM/PM", "am_pm3"),
   ("No Actual Date/Time", "no_actual_date_and_time"),
   ("Late Report", "late_report"),
   ("Incident Location", "incident_location"),
   ("Passenger Name", "passenger_name"),
   ("Passenger ID/Seat #", "passenger_id"),
   ("Explanation of Incident", "explanation_of_incident"),
   ("Signing SQM Name", "signed_sqm_name"),
   ("Date Submitted", "date_submitted")]

/-! ### The pay-exception form (`show_pay_exception_form`) -/

/-- The widget values of one pay-exception submission, as read in
`show_pay_exception_form`. The two signature-date widgets are
`st.date_input`s, so they hold dates; the signature canvases carry
their optional `image_data`. -/
structure PayInputs where
  date : Date
  name : String
  run : String
  bus_number : String
  id_number : String
  route : String
  clock_in : String
  am_pm1 : String
  clock_in_before : String
  am_pm2 : String
  clock_out : String
  am_pm3 : String
  actual_clock_out : String
  am_pm4 : String
  weather : Bool
  extra_work : Bool
  traffic_delay : Bool
  incident_report : Bool
  bus_exchange : Bool
  missed_meal : Bool
  road_call : Bool
  traffic_location : String
  time_reported_to_command : String
  am_pm5 : String
  pay_explanation : String
  pay_operator_signature_date : Date
  pay_signing_sqm_name : String
  pay_supervisor_signature_date : Date
  pay_operator_signature : Option Bitmap
  pay_supervisor_signature : Option Bitmap
  deriving DecidableEq, Repr

/-- Dict `pay_required_fields` from `show_pay_exception_form`: note that
the two `..._signature_date` keys hold date values, not canvases. -/
def pay_required_fields (p : PayInputs) : List (String × String × Value) :=
  [("pay_date", "Date", .date p.date),
   ("pay_name", "Name", .str p.name),
   ("pay_run", "Run #", .str p.run),
   ("pay_bus_number", "Bus #", .str p.bus_number),
   ("pay_id_number", "ID #", .str p.id_number),
   ("pay_route", "Route #", .str p.route),
   ("pay_explanation", "Explanation", .str p.pay_explanation),
   ("pay_operator_signature_date", "Operator Signature Date", .date p.pay_operator_signature_date),
   ("pay_signing_sqm_name", "Signing SQM Name", .str p.pay_signing_sqm_name),
   ("pay_supervisor_signature_date", "Supervisor Signature Date",
      .date p.pay_supervisor_signature_date),
   ("pay_operator_signature", "Operator Signature", .canvas p.pay_operator_signature),
   ("pay_supervisor_signature", "Supervisor Signature", .canvas p.pay_supervisor_signature)]

/-- Dict `pay_form_data` from `show_pay_exception_form`. -/
def pay_form_data (p : PayInputs) : List (String × Value) :=
  [("date", .date p.date),
   ("name", .str p.name),
   ("run", .str p.run),
   ("bus_number", .str p.bus_number),
   ("id_number", .str p.id_number),
   ("route", .str p.route),
   ("clock_in", .str p.clock_in),
   ("am_pm1", .str p.am_pm1),
   ("clock_in_before", .str p.clock_in_before),
   ("am_pm2", .str p.am_pm2),
   ("clock_out", .str p.clock_out),
   ("am_pm3", .str p.am_pm3),
   ("actual_clock_out", .str p.actual_clock_out),
   ("am_pm4", .str p.am_pm4),
   ("weather", .bool p.weather),
   ("extra_work", .bool p.extra_work),
   ("traffic_delay", .bool p.traffic_delay),
   ("incident_report", .bool p.incident_report),
   ("bus_exchange", .bool p.bus_exchange),
   ("missed_meal", .bool p.missed_meal),
   ("road_call", .bool p.road_call),
   ("traffic_location", .str p.traffic_location),
   ("time_reported_to_command", .str p.time_reported_to_command),
   ("am_pm5", .str p.am_pm5),
   ("pay_explanation", .str p.pay_explanation),
   ("pay_operator_signature_date", .date p.pay_operator_signature_date),
   ("pay_signing_sqm_name", .str p.pay_signing_sqm_name),
   ("pay_supervisor_signature_date", .date p.pay_supervisor_signature_date)]

/-- List `pay_columns`: the fixed spreadsheet column order of the
pay-exception worksheet. -/
def pay_columns : List String :=
  ["date", "name", "run", "bus_number", "id_number", "route", "clock_in", "am_pm1",
   "clock_in_before", "am_pm2", "clock_out", "am_pm3", "actual_clock_out", "am_pm4",
   "weather", "extra_work", "traffic_delay", "incident_report", "bus_exchange", "missed_meal",
   "road_call", "traffic_location", "time_reported_to_command", "am_pm5", "pay_explanation",
   "pay_operator_signature_date", "pay_signing_sqm_name", "pay_supervisor_signature_date"]

/-- List `pay_field_list`: the `(label, key)` pairs rendered into the
pay-exception PDF, in order. -/
def pay_field_list : List (String × String) :=
  [("Date", "date"),
   ("Name", "name"),
   ("Run #", "run"),
   ("Bus #", "bus_number"),
   ("ID #", "id_number"),
   ("Route #", "route"),
   ("Clock In", "clock_in"),
   ("AM/PM", "am_pm1"),
   ("Scheduled Clock In", "clock_in_before"),
   ("AM/PM", "am_pm2"),
   ("Clock Out", "clock_out"),
   ("AM/PM", "am_pm3"),
   ("Actual Clock Out", "actual_clock_out"),
   ("AM/PM", "am_pm4"),
   ("Weather", "weather"),
   ("Extra Work", "extra_work"),
   ("Traffic Delay", "traffic_delay"),
   ("Incident Report", "incident_report"),
   ("Bus Exchange", "bus_exchange"),
   ("Missed Meal", "missed_meal"),
   ("Road Call", "road_call"),
   ("Traffic Location", "traffic_location"),
   ("Time Reported to Command", "time_reported_to_command"),
   ("AM/PM", "am_pm5"),
   ("Explanation", "pay_explanation"),
   ("Operator Signature Date", "pay_operator_signature_date"),
   ("Signing SQM Name", "pay_signing_sqm_name"),
   ("Supervisor Signature Date", "pay_supervisor_signature_date")]

/-! ### The submission orchestrator

Both submit handlers share one control flow: validate; on missing
fields record them and rerun (which raises and halts the script); on
an uncaught validation exception nothing below runs; otherwise append
the spreadsheet row (errors caught and shown), render the PDF (errors
caught and shown, `filename = None`), and attempt the email only when
`filename` is set, i.e. only when the PDF step succeeded. In
`show_incident_form` the happy-path code sits after the `if/else`
rather than inside the `else`, but `st.rerun()` raises, so the two
handlers behave identically. -/

/-- Which downstream steps fail in a given run (exceptions thrown by
the spreadsheet client, the PDF renderer, or the email transport). -/
structure StepFaults where
  sheetFails : Bool
  pdfFails : Bool
  emailFails : Bool
  deriving DecidableEq, Repr

/-- Observable outcome of one submit-button press. -/
structure RunResult where
  /-- The validation itself raised; the script aborted with an
  uncaught exception before any downstream step. -/
  halted : Bool
  /-- Keys stored in `st.session_state["missing_*_fields"]`. -/
  missingRecorded : List String
  /-- Call `st.rerun()` was invoked on a failed validation. -/
  rerunTriggered : Bool
  /-- Step `save_to_gsheet` was entered. -/
  sheetAttempted : Bool
  /-- Rows actually appended to the worksheet. -/
  rowsAppended : List (List Value)
  /-- Message "Failed to save to Google Sheet" was shown. -/
  sheetErrorShown : Bool
  /-- Step `save_submission_pdf` was entered. -/
  pdfAttempted : Bool
  /-- Titles of PDFs actually produced. -/
  pdfTitles : List String
  /-- Message "Failed to generate PDF" was shown. -/
  pdfErrorShown : Bool
  /-- Step `send_pdf_email` was entered. -/
  emailAttempted : Bool
  /-- Number of email send attempts made. -/
  emailAttempts : Nat
  deriving DecidableEq, Repr

/-- The shared submit control flow, with the per-step `try/except`
wrappers and the `if filename:` guard before the email step. -/
def submitPipeline (validation : Except String (List (String × String)))
    (row : List Value) (pdfTitle : String) (faults : StepFaults) : RunResult :=
  match validation with
  | .error _ =>
    { halted := true, missingRecorded := [], rerunTriggered := false,
      sheetAttempted := false, rowsAppended := [], sheetErrorShown := false,
      pdfAttempted := false, pdfTitles := [], pdfErrorShown := false,
      emailAttempted := false, emailAttempts := 0 }
  | .ok missing =>
    if missing.isEmpty then
      { halted := false, missingRecorded := [], rerunTriggered := false,
        sheetAttempted := true,
        rowsAppended := if faults.sheetFails then [] else [row],
        sheetErrorShown := faults.sheetFails,
        pdfAttempted := true,
        pdfTitles := if faults.pdfFails then [] else [pdfTitle],
        pdfErrorShown := faults.pdfFails,
        emailAttempted := !faults.pdfFails,
        emailAttempts := if faults.pdfFails then 0 else 1 }
    else
      { halted := false, missingRecorded := missing.map Prod.fst, rerunTriggered := true,
        sheetAttempted := false, rowsAppended := [], sheetErrorShown := false,
        pdfAttempted := false, pdfTitles := [], pdfErrorShown := false,
        emailAttempted := false, emailAttempts := 0 }

/-- One press of "Submit Incident Report" in `show_incident_form`. -/
def incidentSubmit (i : IncidentInputs) (faults : StepFaults) : RunResult :=
  submitPipeline (validate_form (incident_required_fields i))
    (gsheetRow (incident_form_data i) incident_columns)
    "Operator Incident Report" faults

/-- One press of "Submit Pay Exception Form" in
`show_pay_exception_form`. -/
def paySubmit (p : PayInputs) (faults : StepFaults) : RunResult :=
  submitPipeline (validate_form (pay_required_fields p))
    (gsheetRow (pay_form_data p) pay_columns)
    "Operator Pay Exception Form" faults

/-! ### Specification-side definitions

These follow the wording of the spec; the theorems below compare them
with the source-side functions above. -/

/-- Spec wording for one required entry: a key containing
`"signature"` is missing exactly when its canvas bitmap has no pixel
of positive alpha; any other key is missing exactly when its value is
empty/falsy. -/
def entryMissingSpec : String × String × Value → Option (String × String)
  | (key, label, value) =>
    if strContains key "signature" then
      match value with
      | .canvas d => if is_signature_present d then none else some (key, label)
      | _ => none
    else
      if value.truthy then none else some (key, label)

/-- Every `"signature"`-keyed entry of the mapping holds a canvas
value (the situation the spec's validator description presupposes). -/
def sigKeysHoldCanvases (fields : List (String × String × Value)) : Bool :=
  fields.all fun e =>
    !(strContains e.1 "signature") ||
      (match e.2.2 with
       | .canvas _ => true
       | _ => false)

/-- Some downstream step (spreadsheet, PDF, email) was entered. -/
def anyStepAttempted (r : RunResult) : Bool :=
  r.sheetAttempted || r.pdfAttempted || r.emailAttempted

/-- Some required entry is missing in the spec's sense. -/
def hasMissingEntry (fields : List (String × String × Value)) : Bool :=
  fields.any fun e => (entryMissingSpec e).isSome

/-- Spec wording for one spreadsheet cell: a date value is written as
its ISO-8601 string, any other present value as-is, and an absent
column as the empty string. -/
def specCell (data : List (String × Value)) (col : String) : Value :=
  match data.lookup col with
  | none => .str ""
  | some (.date d) => .str d.isoformat
  | some v => v

/-- Spec wording for the vertical space one field pair consumes: the
position after the pair is drawn, before the page-break check. -/
def fieldRawAdvance (data : List (String × Value)) (lf : String × String) (y : Int) : Int :=
  if wrapped_text_fields.contains lf.2 then
    y - 16 - 14 * (simpleSplit (dictGet data lf.2 (.str "")).toPyStr.data 450).length - 10
  else
    y - 20

/-- Number of page breaks in an operation list. -/
def countPages (ops : List PdfOp) : Nat :=
  ops.countP fun op =>
    match op with
    | .showPage => true
    | _ => false

/-- The title/rule/field phase of `save_submission_pdf`, before the
signature section. -/
def fieldsPhase (data : List (String × Value)) (field_list : List (String × String))
    (pdf_title : String) : PdfState :=
  let s0 : PdfState :=
    { y := pageHeight - 80,
      ops := [.setFont "Helvetica-Bold" 20,
              .drawCentredString (pageWidth / 2) (pageHeight - 50) pdf_title] }
  let s1 : PdfState :=
    { y := s0.y - 24,
      ops := s0.ops ++ [.line 72 s0.y (pageWidth - 72) s0.y, .setFont "Helvetica" 14] }
  field_list.foldl (drawFieldPair data) s1

/-- The reserve-vertical-space rule before the signatures: force a
page break (with the fixed reset) when fewer than 350 points remain. -/
def sigStart (s : PdfState) : PdfState :=
  if s.y < 350 then newPageReset s else s

/-- The two optional signature blocks. -/
def sigBlocks (s : PdfState) (operator_signature_img supervisor_signature_img : Option (Option Bitmap)) :
    PdfState :=
  let s4 :=
    match operator_signature_img with
    | none => s
    | some d => drawSignatureBlock s "Operator Signature" d 30
  match supervisor_signature_img with
  | none => s4
  | some d => drawSignatureBlock s4 "Supervisor Signature" d 3

/-- Every required incident field is filled and both signature
canvases contain ink. -/
def incidentAllFilled (i : IncidentInputs) : Bool :=
  (!(i.time == "")) && (!(i.brief == "")) && (!(i.operator_name == "")) &&
  (!(i.vehicle == "")) && (!(i.operator_id == "")) && (!(i.route == "")) &&
  (!(i.depot == "")) && (!(i.run == "")) && (!(i.incident_location == "")) &&
  (!(i.explanation_of_incident == "")) && (!(i.signed_sqm_name == "")) &&
  is_signature_present i.operator_signature && is_signature_present i.supervisor_signature

/-! ### Sample inputs (used by witnesses and counterexamples) -/

/-- A one-pixel bitmap with full alpha: a canvas with ink. -/
def inkDot : Bitmap := [[⟨0, 0, 0, 255⟩]]

/-- No downstream step throws. -/
def noFaults : StepFaults := ⟨false, false, false⟩

/-- Only the spreadsheet append throws. -/
def sheetFaultOnly : StepFaults := ⟨true, false, false⟩

/-- Only the PDF render throws. -/
def pdfFaultOnly : StepFaults := ⟨false, true, false⟩

/-- An incident submission with every required field filled and both
signature canvases inked. -/
def sampleIncidentFull : IncidentInputs :=
  { date := ⟨2025, 3, 4⟩, time := "10:30", am_pm1 := "AM", brief := "B1",
    operator_name := "Pat Doe", vehicle := "1204", operator_id := "77",
    route := "N6", depot := "Mitchel", run := "12",
    report_submitted_to := "SQM", incident_type := "Other",
    incident_type_other := "fare dispute", reported_immediately := "Yes",
    reported_to_dispatcher := "Kim", reason_for_non_immediate_report := "",
    sqm_respond_to_incident := "No", responding_sqm := "",
    date_incident_occurred := ⟨2025, 3, 4⟩, date_incident_reported := ⟨2025, 3, 4⟩,
    time_incident_occurred := "10:00", time_incident_reported := "10:15",
    am_pm2 := "AM", am_pm3 := "AM", no_actual_date_and_time := false,
    late_report := false, incident_location := "Main St",
    passenger_name := "", passenger_id := "",
    explanation_of_incident := "Passenger slipped while boarding.",
    signed_sqm_name := "Lee", date_submitted := ⟨2025, 3, 4⟩,
    operator_signature := some inkDot, supervisor_signature := some inkDot }

/-- The same submission with the required "Time" field left empty. -/
def sampleIncidentMissingTime : IncidentInputs :=
  { sampleIncidentFull with time := "" }

/-- A pay-exception submission whose required "Explanation" is empty. -/
def samplePayMissingExpl : PayInputs :=
  { date := ⟨2025, 3, 4⟩, name := "Pat Doe", run := "12", bus_number := "1204",
    id_number := "77", route := "N6", clock_in := "5:00", am_pm1 := "AM",
    clock_in_before := "", am_pm2 := "AM", clock_out := "3:10", am_pm3 := "PM",
    actual_clock_out := "3:40", am_pm4 := "PM", weather := false,
    extra_work := false, traffic_delay := true, incident_report := false,
    bus_exchange := false, missed_meal := false, road_call := false,
    traffic_location := "N6 at Main St", time_reported_to_command := "3:15",
    am_pm5 := "PM", pay_explanation := "",
    pay_operator_signature_date := ⟨2025, 3, 4⟩, pay_signing_sqm_name := "Lee",
    pay_supervisor_signature_date := ⟨2025, 3, 4⟩,
    pay_operator_signature := some inkDot, pay_supervisor_signature := some inkDot }

/-! ### Helper lemmas -/

/-- The error message of the `.image_data` access on a non-canvas
value for the first offending pay-exception key. -/
def payAttrError : String :=
  "AttributeError: value for pay_operator_signature_date has no attribute image_data"

theorem validate_form_eq_spec (fields : List (String × String × Value))
    (h : sigKeysHoldCanvases fields = true) :
    validate_form fields = .ok (fields.filterMap entryMissingSpec) := by
  induction fields with
  | nil => rfl
  | cons e rest ih =>
    obtain ⟨k, l, v⟩ := e
    rw [sigKeysHoldCanvases, List.all_cons, Bool.and_eq_true] at h
    have hrest := ih h.2
    by_cases hsig : strContains k "signature" = true
    · cases v with
      | canvas d =>
        cases hp : is_signature_present d <;>
          simp [validate_form, hsig, Value.imageData, hrest, entryMissingSpec, hp]
      | str s => simp [hsig] at h
      | bool b => simp [hsig] at h
      | date d => simp [hsig] at h
    · have hsig' : strContains k "signature" = false := by
        simpa using hsig
      cases ht : v.truthy <;>
        simp [validate_form, hsig', hrest, entryMissingSpec, ht]

theorem pay_validate_err (p : PayInputs) :
    validate_form (pay_required_fields p) = .error payAttrError := rfl

theorem incident_sigKeys (i : IncidentInputs) :
    sigKeysHoldCanvases (incident_required_fields i) = true := rfl

theorem submitPipeline_steps_iff (v : Except String (List (String × String)))
    (row : List Value) (t : String) (f : StepFaults) :
    anyStepAttempted (submitPipeline v row t f) = true ↔ v = .ok [] := by
  cases v with
  | error e => simp [submitPipeline, anyStepAttempted]
  | ok missing =>
    by_cases hm : missing.isEmpty
    · rw [List.isEmpty_iff] at hm
      subst hm
      simp [submitPipeline, anyStepAttempted]
    · have hm' : missing ≠ [] := by
        simpa [List.isEmpty_iff] using hm
      simp [submitPipeline, anyStepAttempted, hm, hm']

theorem filterMap_ne_nil_of_any_isSome {α β : Type} (f : α → Option β) (l : List α)
    (h : l.any (fun a => (f a).isSome) = true) : l.filterMap f ≠ [] := by
  rw [List.any_eq_true] at h
  obtain ⟨a, ha, hfa⟩ := h
  intro hnil
  rw [List.filterMap_eq_nil_iff] at hnil
  rw [hnil a ha] at hfa
  simp at hfa

/-! ### Claim theorems -/

/-- C1. For every required-fields mapping whose `"signature"` keys
hold canvas values (as the claim's reading of "their canvas bitmap"
presupposes), `validate_form` returns exactly the entries whose value
is empty/falsy — except that a key containing `"signature"` is
reported missing exactly when its canvas bitmap has no pixel with
alpha > 0. -/
theorem validate_returns_exact_missing_set (fields : List (String × String × Value))
    (h : sigKeysHoldCanvases fields = true) :
    validate_form fields = .ok (fields.filterMap entryMissingSpec) :=
  validate_form_eq_spec fields h

/-- Witness for C1: a mapping with an inked signature, an inkless
signature, an empty text field and a filled one; exactly the inkless
signature and the empty field are reported. -/
theorem validate_returns_exact_missing_set_witness :
    validate_form
      [("operator_signature", "Operator Signature", .canvas (some [[⟨0, 0, 0, 9⟩]])),
       ("supervisor_signature", "Supervisor Signature", .canvas (some [[⟨0, 0, 0, 0⟩]])),
       ("incident_time", "Time", .str ""),
       ("incident_brief", "Brief #", .str "B1")] =
    .ok ([("operator_signature", "Operator Signature", Value.canvas (some [[⟨0, 0, 0, 9⟩]])),
          ("supervisor_signature", "Supervisor Signature", .canvas (some [[⟨0, 0, 0, 0⟩]])),
          ("incident_time", "Time", .str ""),
          ("incident_brief", "Brief #", .str "B1")].filterMap entryMissingSpec) :=
  validate_returns_exact_missing_set _ (by decide)

/-- C3. `validate_form` classifies an entry as a signature exactly
when `"signature"` occurs in its key — which is the case for the
date-valued pay-exception keys `pay_operator_signature_date` and
`pay_supervisor_signature_date` — so on every pay-exception submission
the validator hits the `.image_data` access on a date value and raises
instead of returning a missing-key set. -/
theorem pay_validate_reaches_attribute_error :
    (∀ p : PayInputs, validate_form (pay_required_fields p) = .error payAttrError) ∧
    strContains "pay_operator_signature_date" "signature" = true ∧
    strContains "pay_supervisor_signature_date" "signature" = true :=
  ⟨fun p => pay_validate_err p, by decide, by decide⟩

/-- C2. For both forms, a downstream step (spreadsheet append, PDF
render, email send) is entered exactly when `validate_form` returned
an empty missing set; and whenever some required entry is missing in
the spec's sense (empty/falsy value, or inkless signature bitmap),
none of the three steps runs. -/
theorem submission_blocked_unless_valid (i : IncidentInputs) (p : PayInputs) (f : StepFaults) :
    (anyStepAttempted (incidentSubmit i f) = true ↔
       validate_form (incident_required_fields i) = .ok []) ∧
    (anyStepAttempted (paySubmit p f) = true ↔
       validate_form (pay_required_fields p) = .ok []) ∧
    (hasMissingEntry (incident_required_fields i) = true →
       anyStepAttempted (incidentSubmit i f) = false) ∧
    (hasMissingEntry (pay_required_fields p) = true →
       anyStepAttempted (paySubmit p f) = false) := by
  refine ⟨submitPipeline_steps_iff _ _ _ _, submitPipeline_steps_iff _ _ _ _, ?_, ?_⟩
  · intro hmiss
    have hval := validate_form_eq_spec _ (incident_sigKeys i)
    have hne := filterMap_ne_nil_of_any_isSome entryMissingSpec _ hmiss
    have hempty : ((incident_required_fields i).filterMap entryMissingSpec).isEmpty = false := by
      cases hcase : ((incident_required_fields i).filterMap entryMissingSpec).isEmpty with
      | false => rfl
      | true => exact absurd (List.isEmpty_iff.mp hcase) hne
    simp [incidentSubmit, hval, submitPipeline, anyStepAttempted, hempty]
  · intro _
    have hval := pay_validate_err p
    simp [paySubmit, hval, submitPipeline, anyStepAttempted]

/-- Witness for C2: with the required "Time" (incident) and
"Explanation" (pay) empty, no downstream step runs. -/
theorem submission_blocked_unless_valid_witness :
    anyStepAttempted (incidentSubmit sampleIncidentMissingTime noFaults) = false ∧
    anyStepAttempted (paySubmit samplePayMissingExpl noFaults) = false :=
  ⟨(submission_blocked_unless_valid sampleIncidentMissingTime samplePayMissingExpl
      noFaults).2.2.1 (by decide),
   (submission_blocked_unless_valid sampleIncidentMissingTime samplePayMissingExpl
      noFaults).2.2.2 (by decide)⟩

theorem validate_cons_plain (k l : String) (v : Value) (rest : List (String × String × Value))
    (hk : strContains k "signature" = false) (hv : v.truthy = true) :
    validate_form ((k, l, v) :: rest) = validate_form rest := by
  cases hrest : validate_form rest <;> simp [validate_form, hk, hv, hrest]

theorem validate_cons_sig_inked (k l : String) (d : Option Bitmap)
    (rest : List (String × String × Value))
    (hk : strContains k "signature" = true) (hd : is_signature_present d = true) :
    validate_form ((k, l, .canvas d) :: rest) = validate_form rest := by
  cases hrest : validate_form rest <;>
    simp [validate_form, hk, Value.imageData, hd, hrest]

theorem incident_validate_ok (i : IncidentInputs) (h : incidentAllFilled i = true) :
    validate_form (incident_required_fields i) = .ok [] := by
  rw [incidentAllFilled] at h
  simp only [Bool.and_eq_true, Bool.not_eq_true'] at h
  obtain ⟨⟨⟨⟨⟨⟨⟨⟨⟨⟨⟨⟨h1, h2⟩, h3⟩, h4⟩, h5⟩, h6⟩, h7⟩, h8⟩, h9⟩, h10⟩, h11⟩, h12⟩, h13⟩ := h
  rw [incident_required_fields,
    validate_cons_plain _ _ _ _ (by decide) (by simp [Value.truthy, h1]),
    validate_cons_plain _ _ _ _ (by decide) (by simp [Value.truthy, h2]),
    validate_cons_plain _ _ _ _ (by decide) (by simp [Value.truthy, h3]),
    validate_cons_plain _ _ _ _ (by decide) (by simp [Value.truthy, h4]),
    validate_cons_plain _ _ _ _ (by decide) (by simp [Value.truthy, h5]),
    validate_cons_plain _ _ _ _ (by decide) (by simp [Value.truthy, h6]),
    validate_cons_plain _ _ _ _ (by decide) (by simp [Value.truthy, h7]),
    validate_cons_plain _ _ _ _ (by decide) (by simp [Value.truthy, h8]),
    validate_cons_plain _ _ _ _ (by decide) (by simp [Value.truthy, h9]),
    validate_cons_plain _ _ _ _ (by decide) (by simp [Value.truthy, h10]),
    validate_cons_plain _ _ _ _ (by decide) (by simp [Value.truthy, h11]),
    validate_cons_sig_inked _ _ _ _ (by decide) h12,
    validate_cons_sig_inked _ _ _ _ (by decide) h13]
  rfl

theorem submitPipeline_fault_isolation (v : Except String (List (String × String)))
    (row : List Value) (t : String) (f : StepFaults) :
    ((submitPipeline v row t f).sheetErrorShown = true →
       (submitPipeline v row t f).pdfAttempted = true) ∧
    ((submitPipeline v row t f).pdfAttempted = true →
       ((submitPipeline v row t f).emailAttempted = true ↔ f.pdfFails = false)) := by
  cases v with
  | error e => simp [submitPipeline]
  | ok missing =>
    by_cases hm : missing.isEmpty
    · cases hf : f.pdfFails <;> simp [submitPipeline, hm, hf]
    · simp [submitPipeline, hm]

/-- C4 counterexample: the incident spreadsheet row of a fully filled
submission has 32 values, not 31 (`incident_columns` lists 32 column
keys). -/
theorem incident_row_not_31 :
    (gsheetRow (incident_form_data sampleIncidentFull) incident_columns).length = 32 ∧
    ¬((gsheetRow (incident_form_data sampleIncidentFull) incident_columns).length = 31) := by
  constructor <;> simp [gsheetRow, incident_columns]

/-- C4 (amended: 32 columns). For an incident submission in which
every required field is filled and both signature canvases contain
ink, `validate_form` returns an empty missing set, exactly one
spreadsheet row is appended — with 32 values in the fixed
`incident_columns` order — one PDF is produced with title
"Operator Incident Report", and exactly one email attempt is made. -/
theorem incident_happy_path (i : IncidentInputs) (h : incidentAllFilled i = true) :
    validate_form (incident_required_fields i) = .ok [] ∧
    (incidentSubmit i noFaults).rowsAppended =
      [gsheetRow (incident_form_data i) incident_columns] ∧
    (gsheetRow (incident_form_data i) incident_columns).length = 32 ∧
    (incidentSubmit i noFaults).pdfTitles = ["Operator Incident Report"] ∧
    (incidentSubmit i noFaults).emailAttempts = 1 := by
  have hval := incident_validate_ok i h
  refine ⟨hval, ?_, ?_, ?_, ?_⟩
  · simp [incidentSubmit, hval, submitPipeline, noFaults]
  · simp [gsheetRow, incident_columns]
  · simp [incidentSubmit, hval, submitPipeline, noFaults]
  · simp [incidentSubmit, hval, submitPipeline, noFaults]

/-- Witness for C4's amended theorem at a concrete filled submission. -/
theorem incident_happy_path_witness :
    validate_form (incident_required_fields sampleIncidentFull) = .ok [] ∧
    (incidentSubmit sampleIncidentFull noFaults).rowsAppended =
      [gsheetRow (incident_form_data sampleIncidentFull) incident_columns] ∧
    (gsheetRow (incident_form_data sampleIncidentFull) incident_columns).length = 32 ∧
    (incidentSubmit sampleIncidentFull noFaults).pdfTitles = ["Operator Incident Report"] ∧
    (incidentSubmit sampleIncidentFull noFaults).emailAttempts = 1 :=
  incident_happy_path sampleIncidentFull (by decide)

/-- C5 counterexample: on a fully valid incident submission where only
the PDF render throws, the PDF step runs and its failure is reported,
but the email send is never attempted (the code guards the email step
with `if filename:`). -/
theorem pdf_failure_skips_email :
    (incidentSubmit sampleIncidentFull pdfFaultOnly).pdfAttempted = true ∧
    (incidentSubmit sampleIncidentFull pdfFaultOnly).pdfErrorShown = true ∧
    (incidentSubmit sampleIncidentFull pdfFaultOnly).emailAttempted = false := by
  decide

/-- C5 (amended). A spreadsheet failure is reported and still attempts
the PDF render; but the email send is attempted exactly when the PDF
step succeeded, so a PDF failure is reported and skips the email. -/
theorem step_failure_isolation (i : IncidentInputs) (p : PayInputs) (f : StepFaults) :
    ((incidentSubmit i f).sheetErrorShown = true → (incidentSubmit i f).pdfAttempted = true) ∧
    ((incidentSubmit i f).pdfAttempted = true →
       ((incidentSubmit i f).emailAttempted = true ↔ f.pdfFails = false)) ∧
    ((paySubmit p f).sheetErrorShown = true → (paySubmit p f).pdfAttempted = true) ∧
    ((paySubmit p f).pdfAttempted = true →
       ((paySubmit p f).emailAttempted = true ↔ f.pdfFails = false)) :=
  ⟨(submitPipeline_fault_isolation _ _ _ _).1, (submitPipeline_fault_isolation _ _ _ _).2,
   (submitPipeline_fault_isolation _ _ _ _).1, (submitPipeline_fault_isolation _ _ _ _).2⟩

/-- Witness for C5's amended theorem: a spreadsheet failure on a valid
submission still reaches the PDF step. -/
theorem step_failure_isolation_witness :
    (incidentSubmit sampleIncidentFull sheetFaultOnly).pdfAttempted = true :=
  (step_failure_isolation sampleIncidentFull samplePayMissingExpl sheetFaultOnly).1 (by decide)

theorem getLast?_append_pair {α : Type} (l : List α) (a b : α) :
    (l ++ [a, b]).getLast? = some b := by
  induction l with
  | nil => rfl
  | cons c l ih =>
    rw [List.cons_append]
    cases hl : l ++ [a, b] with
    | nil => exact absurd hl (by simp)
    | cons x xs =>
      rw [List.getLast?_cons_cons, ← hl, ih]

theorem drawPairRaw_y (data : List (String × Value)) (s : PdfState) (lf : String × String) :
    (drawPairRaw data s lf).y = fieldRawAdvance data lf s.y := by
  obtain ⟨label, key⟩ := lf
  by_cases hw : key ∈ wrapped_text_fields <;>
    simp [drawPairRaw, draw_wrapped_text, fieldRawAdvance, hw, sub_sub]

theorem drawPairRaw_countPages (data : List (String × Value)) (s : PdfState)
    (lf : String × String) :
    countPages (drawPairRaw data s lf).ops = countPages s.ops := by
  obtain ⟨label, key⟩ := lf
  by_cases hw : key ∈ wrapped_text_fields
  · simp [drawPairRaw, draw_wrapped_text, hw, countPages, List.countP_append,
      List.countP_cons, List.countP_map]
  · simp [drawPairRaw, countPages, List.countP_append, List.countP_cons, hw]

theorem countPages_append (l1 l2 : List PdfOp) :
    countPages (l1 ++ l2) = countPages l1 + countPages l2 :=
  List.countP_append _ _ _

theorem serialize_cell_eq_spec (data : List (String × Value)) (col : String) :
    serialize_value (dictGet data col (.str "")) = specCell data col := by
  rw [dictGet, specCell]
  cases h : data.lookup col with
  | none => rfl
  | some v => cases v <;> rfl

/-- C6. The spreadsheet row has exactly one value per column in
column-list order: dates are written as their ISO-8601 string, any
other present value passes through unchanged, and an absent column
yields the empty string. -/
theorem gsheet_row_matches_columns (data : List (String × Value)) (columns : List String) :
    gsheetRow data columns = columns.map (specCell data) ∧
    (gsheetRow data columns).length = columns.length := by
  constructor
  · rw [gsheetRow]
    exact List.map_congr_left fun col _ => serialize_cell_eq_spec data col
  · simp [gsheetRow]

/-- C7. A signature is judged present iff some pixel of its RGBA
bitmap has a positive alpha value; a canvas that produced no bitmap at
all (`image_data is None`) is never judged present. -/
theorem signature_present_iff :
    is_signature_present none = false ∧
    ∀ img : Bitmap,
      (is_signature_present (some img) = true ↔ ∃ row ∈ img, ∃ px ∈ row, 0 < px.a) := by
  refine ⟨rfl, fun img => ?_⟩
  simp [is_signature_present, List.any_eq_true]

/-- C8. Page-break behaviour of `save_submission_pdf`: after each
label/value pair the position either stays put (when still at least
100 points up the page) or a page break fires and the position resets
to the fixed top margin `pageHeight - 72` with the body font restored;
and when any signature is to be drawn, the signature section starts
from `sigStart`, which forces the same break-and-reset whenever fewer
than 350 points remain. -/
theorem pdf_page_break_rules :
    (∀ (data : List (String × Value)) (s : PdfState) (lf : String × String),
       (drawFieldPair data s lf).y =
         (if fieldRawAdvance data lf s.y < 100 then pageHeight - 72
          else fieldRawAdvance data lf s.y) ∧
       countPages (drawFieldPair data s lf).ops =
         countPages s.ops + (if fieldRawAdvance data lf s.y < 100 then 1 else 0) ∧
       (fieldRawAdvance data lf s.y < 100 →
          (drawFieldPair data s lf).ops.getLast? = some (.setFont "Helvetica" 14))) ∧
    (∀ (data : List (String × Value)) (fl : List (String × String)) (title : String)
       (o su : Option (Option Bitmap)),
       (o.isSome || su.isSome) = true →
       save_submission_pdf data fl title o su =
         sigBlocks (sigStart (fieldsPhase data fl title)) o su) ∧
    (∀ s : PdfState,
       (s.y < 350 → sigStart s =
          { y := pageHeight - 72, ops := s.ops ++ [.showPage, .setFont "Helvetica" 14] }) ∧
       (¬s.y < 350 → sigStart s = s)) := by
  refine ⟨?_, ?_, ?_⟩
  · intro data s lf
    have hy := drawPairRaw_y data s lf
    have hc := drawPairRaw_countPages data s lf
    by_cases hb : fieldRawAdvance data lf s.y < 100
    · have hlow : (drawPairRaw data s lf).y < 100 := by rw [hy]; exact hb
      refine ⟨?_, ?_, ?_⟩
      · unfold drawFieldPair pageBreakIfLow
        rw [if_pos hlow, if_pos hb]
        rfl
      · unfold drawFieldPair pageBreakIfLow
        rw [if_pos hlow, if_pos hb, newPageReset, countPages_append, hc]
        rfl
      · intro _
        unfold drawFieldPair pageBreakIfLow
        rw [if_pos hlow, newPageReset]
        exact getLast?_append_pair _ _ _
    · have hlow : ¬(drawPairRaw data s lf).y < 100 := by rw [hy]; exact hb
      refine ⟨?_, ?_, ?_⟩
      · unfold drawFieldPair pageBreakIfLow
        rw [if_neg hlow, if_neg hb]
        exact hy
      · unfold drawFieldPair pageBreakIfLow
        rw [if_neg hlow, if_neg hb, hc, Nat.add_zero]
      · intro hcontra
        exact absurd hcontra hb
  · intro data fl title o su hsig
    unfold save_submission_pdf fieldsPhase sigStart sigBlocks
    rw [hsig]
    rfl
  · intro s
    constructor
    · intro h
      simp [sigStart, newPageReset, h]
    · intro h
      simp [sigStart, h]

/-- Witness for C8: a break fires for a plain field drawn from
`y = 119` (raw advance 99 < 100), and the signature-section
decomposition at concrete arguments. -/
theorem pdf_page_break_rules_witness :
    (drawFieldPair [] ⟨119, []⟩ ("A", "a")).ops.getLast? =
      some (.setFont "Helvetica" 14) ∧
    save_submission_pdf [] [] "T" (some none) none =
      sigBlocks (sigStart (fieldsPhase [] [] "T")) (some none) none :=
  ⟨(pdf_page_break_rules.1 [] ⟨119, []⟩ ("A", "a")).2.2 (by decide),
   pdf_page_break_rules.2.1 [] [] "T" (some none) none (by decide)⟩

theorem wrapWords_ne_nil (maxW : Nat) :
    ∀ (ws : List (List Char)) (cur : List Char), wrapWords maxW ws cur ≠ [] := by
  intro ws
  induction ws with
  | nil => intro cur; simp [wrapWords]
  | cons w ws ih =>
    intro cur
    rw [wrapWords]
    by_cases hfit : cur.length + 1 + w.length ≤ maxW
    · rw [if_pos hfit]; exact ih _
    · rw [if_neg hfit]; simp

theorem joinSpaces_cons_cons (a b : List Char) (l : List (List Char)) :
    joinSpaces (a :: b :: l) = a ++ [' '] ++ joinSpaces (b :: l) := rfl

theorem joinSpaces_glue (a b : List Char) (l : List (List Char)) :
    joinSpaces ((a ++ [' '] ++ b) :: l) = joinSpaces (a :: b :: l) := by
  cases l with
  | nil => simp [joinSpaces]
  | cons x xs => simp [joinSpaces_cons_cons, joinSpaces]

theorem joinSpaces_wrapWords (maxW : Nat) :
    ∀ (ws : List (List Char)) (cur : List Char),
      joinSpaces (wrapWords maxW ws cur) = joinSpaces (cur :: ws) := by
  intro ws
  induction ws with
  | nil => intro cur; rfl
  | cons w ws ih =>
    intro cur
    rw [wrapWords]
    by_cases hfit : cur.length + 1 + w.length ≤ maxW
    · rw [if_pos hfit, ih, joinSpaces_glue]
    · rw [if_neg hfit]
      cases hr : wrapWords maxW ws w with
      | nil => exact absurd hr (wrapWords_ne_nil maxW ws w)
      | cons r rs =>
        rw [joinSpaces_cons_cons, ← hr, ih, joinSpaces_cons_cons]

theorem splitSpaces_ne_nil : ∀ t : List Char, splitSpaces t ≠ [] := by
  intro t
  cases t with
  | nil => simp [splitSpaces]
  | cons c cs =>
    rw [splitSpaces]
    by_cases hc : c = ' '
    · rw [if_pos hc]; simp
    · rw [if_neg hc]
      cases splitSpaces cs <;> simp

theorem joinSpaces_splitSpaces : ∀ t : List Char, joinSpaces (splitSpaces t) = t := by
  intro t
  induction t with
  | nil => rfl
  | cons c cs ih =>
    rw [splitSpaces]
    by_cases hc : c = ' '
    · rw [if_pos hc]
      cases hs : splitSpaces cs with
      | nil => exact absurd hs (splitSpaces_ne_nil cs)
      | cons w ws =>
        rw [joinSpaces_cons_cons]
        rw [hs] at ih
        simp [ih, hc]
    · rw [if_neg hc]
      cases hs : splitSpaces cs with
      | nil => exact absurd hs (splitSpaces_ne_nil cs)
      | cons w ws =>
        rw [hs] at ih
        cases ws with
        | nil => simp [joinSpaces] at ih ⊢; exact ih
        | cons x xs =>
          rw [joinSpaces_cons_cons] at ih ⊢
          simp [← ih]

theorem mem_joinSpaces :
    ∀ (ls : List (List Char)) (c : Char), c ∈ joinSpaces ls → c = ' ' ∨ ∃ l ∈ ls, c ∈ l := by
  intro ls
  induction ls with
  | nil => intro c hc; simp [joinSpaces] at hc
  | cons w ws ih =>
    intro c hc
    cases ws with
    | nil =>
      simp [joinSpaces] at hc
      exact Or.inr ⟨w, by simp, hc⟩
    | cons x xs =>
      rw [joinSpaces_cons_cons] at hc
      rcases List.mem_append.mp hc with hw | hrest
      · rcases List.mem_append.mp hw with hw' | hsp
        · exact Or.inr ⟨w, by simp, hw'⟩
        · exact Or.inl (by simpa using hsp)
      · rcases ih c hrest with h | ⟨l, hl, hcl⟩
        · exact Or.inl h
        · exact Or.inr ⟨l, by simp [hl], hcl⟩

/-- C9. Word-wrapping never truncates: the wrap always yields at least
one line, rejoining the lines with single spaces restores the text
exactly, and every non-space character of the text appears in some
line. (The splitter is modelled from the spec, since reportlab's
`simpleSplit` is third-party code outside this repository.) -/
theorem wrap_preserves_characters (text : List Char) (maxW : Nat) :
    simpleSplit text maxW ≠ [] ∧
    joinSpaces (simpleSplit text maxW) = text ∧
    ∀ c ∈ text, c ≠ ' ' → ∃ l ∈ simpleSplit text maxW, c ∈ l := by
  have hjoin : joinSpaces (simpleSplit text maxW) = text := by
    rw [simpleSplit]
    cases hs : splitSpaces text with
    | nil => exact absurd hs (splitSpaces_ne_nil text)
    | cons w ws =>
      rw [joinSpaces_wrapWords, ← hs, joinSpaces_splitSpaces]
  refine ⟨?_, hjoin, ?_⟩
  · rw [simpleSplit]
    cases hs : splitSpaces text with
    | nil => exact absurd hs (splitSpaces_ne_nil text)
    | cons w ws => exact wrapWords_ne_nil _ _ _
  · intro c hc hcsp
    rcases mem_joinSpaces (simpleSplit text maxW) c (by rw [hjoin]; exact hc) with h | h
    · exact absurd h hcsp
    · exact h

/-- Witness for C9: a text wrapped at width 5 splits into several
lines and every character survives. -/
theorem wrap_preserves_characters_witness :
    ∃ l ∈ simpleSplit "ride report late".data 5, 'p' ∈ l :=
  (wrap_preserves_characters "ride report late".data 5).2.2 'p' (by decide) (by decide)

theorem drawFieldPair_congr (d1 d2 : List (String × Value)) (s : PdfState)
    (lf : String × String)
    (h : dictGet d1 lf.2 (.str "") = dictGet d2 lf.2 (.str "")) :
    drawFieldPair d1 s lf = drawFieldPair d2 s lf := by
  obtain ⟨label, key⟩ := lf
  simp only [drawFieldPair, drawPairRaw]
  rw [show dictGet d1 key (Value.str "") = dictGet d2 key (Value.str "") from h]

theorem foldl_drawFieldPair_congr (d1 d2 : List (String × Value)) :
    ∀ (fl : List (String × String)) (s : PdfState),
      (∀ lf ∈ fl, dictGet d1 lf.2 (.str "") = dictGet d2 lf.2 (.str "")) →
      fl.foldl (drawFieldPair d1) s = fl.foldl (drawFieldPair d2) s := by
  intro fl
  induction fl with
  | nil => intro s _; rfl
  | cons lf fl ih =>
    intro s h
    rw [List.foldl_cons, List.foldl_cons,
      drawFieldPair_congr d1 d2 s lf (h lf (by simp)),
      ih _ (fun e he => h e (by simp [he]))]

/-- C10. `save_submission_pdf` is a pure function of its declared
inputs: two data mappings that agree on every key of the field list
(together with equal field lists, titles and signature bitmaps)
produce exactly the same operation trace and layout. -/
theorem pdf_render_deterministic (d1 d2 : List (String × Value))
    (fl : List (String × String)) (title : String)
    (o su : Option (Option Bitmap))
    (h : ∀ lf ∈ fl, dictGet d1 lf.2 (.str "") = dictGet d2 lf.2 (.str "")) :
    save_submission_pdf d1 fl title o su = save_submission_pdf d2 fl title o su := by
  simp only [save_submission_pdf]
  rw [foldl_drawFieldPair_congr d1 d2 fl _ h]

/-- Witness for C10: adding an entry for a key outside the field list
leaves the rendered PDF unchanged. -/
theorem pdf_render_deterministic_witness :
    save_submission_pdf [("a", .str "x"), ("unused", .str "y")] [("A", "a")] "T" none none =
      save_submission_pdf [("a", .str "x")] [("A", "a")] "T" none none :=
  pdf_render_deterministic _ _ _ _ _ _ (by decide)

end OpsForms
